import Mathlib

/-! The driver `main` of ROPSEstimation.CPP.

`src/Features/ROPSEstimation.CPP` holds one function, `main`, which grabs a frame,
estimates normals, triangulates and runs the RoPS estimator of the point-cloud library.

The embedding is state passing. Every library object `main` declares is a record whose
fields are the members its setters write; a setter returns the updated record and appends
the call to a log. The library routines that do the numerical work (`compute`,
`reconstruct`, `concatenateFields`) and the frame grabber are not part of the repository:
they are parameters (`Lib`, and the `latest` argument of `main`), assumed to return.
-/

namespace PracticePCL

/-! ## Scalars -/

/-- Numeric argument of a library call. `lit q` is a literal (or a variable holding one)
whose binary value is exactly `q`; `piMulDiv a b` is the `double` the expression
`a * M_PI / b` evaluates to (`M_PI` comes from the system headers). -/
inductive Num where
  | lit (q : ℚ)
  | piMulDiv (a b : ℕ)
  deriving DecidableEq

/-- Value of the `float` literal `0.0285f` (line 82): the binary32 number `0x1.d2f1aap-6`. -/
def support_radius : ℚ := 15300821 / 2 ^ 29

/-- Value of `unsigned int number_of_partition_bins = 5` (line 83). -/
def number_of_partition_bins : ℕ := 5

/-- Value of `unsigned int number_of_rotations = 3` (line 84). -/
def number_of_rotations : ℕ := 3

/-- Value of the `double` literal `0.01` (line 49). -/
def normal_radius : ℚ := 5764607523034235 / 2 ^ 59

/-- The template argument of `pcl::Histogram<135>` (lines 86 and 97). -/
def histogram_width : ℕ := 135

/-! ## Objects -/

/-- Names of the objects `main` declares and calls into. `pcl` stands for the namespace
of the free function `pcl::concatenateFields`. -/
inductive Obj where
  | v | normal_estimator | tree_n | pcl | tree_c_n | gp3 | search_method | ros_estimator
  deriving DecidableEq, Repr

/-- Member functions (and the one free function) `main` calls. -/
inductive Method where
  | run | getLatestCloud
  | setInputCloud | setRadiusSearch | setSearchMethod | compute
  | concatenateFields
  | setSearchRadius | setMu | setMaximumNearestNeighbors | setMaximumSurfaceAngle
  | setMinimumAngle | setMaximumAngle | setNormalConsistency | reconstruct
  | setSearchSurface | setTriangles | setNumberOfPartitionBins | setNumberOfRotations
  | setSupportRadius
  deriving DecidableEq, Repr

/-- Parameter-setting calls: the `set...` member functions. -/
def Method.isSetter : Method → Bool
  | .setInputCloud | .setRadiusSearch | .setSearchMethod
  | .setSearchRadius | .setMu | .setMaximumNearestNeighbors | .setMaximumSurfaceAngle
  | .setMinimumAngle | .setMaximumAngle | .setNormalConsistency
  | .setSearchSurface | .setTriangles | .setNumberOfPartitionBins | .setNumberOfRotations
  | .setSupportRadius => true
  | _ => false

/-- Calls that run an algorithm of the library: `compute` and `reconstruct`. -/
def Method.isCompute : Method → Bool
  | .compute | .reconstruct => true
  | _ => false

/-- The container types of the library that `main` handles; their contents are not
inspected by `main`. -/
structure Data where
  /-- Contents of a `pcl::PointCloud<pcl::PointXYZ>`. -/
  Cloud : Type
  /-- Contents of a `pcl::PointCloud<pcl::Normal>`. -/
  Normals : Type
  /-- Contents of a `pcl::PointCloud<pcl::PointNormal>`. -/
  CloudNormal : Type
  /-- A `pcl::PolygonMesh`. -/
  PolygonMesh : Type
  /-- The member `polygons` of a mesh, a `std::vector<pcl::Vertices>`. -/
  Polygons : Type
  /-- Contents of a `pcl::PointCloud<pcl::Histogram<N>>`. -/
  Histograms : Type

/-- A `pcl::search::KdTree<PointT>`; `input_` is `none` until `setInputCloud` is called. -/
structure KdTree (C : Type) where
  name : Obj
  input_ : Option C := none

/-- A `pcl::NormalEstimation<pcl::PointXYZ, pcl::Normal>`; a member is `none` while `main`
has not set it. -/
structure NormalEstimation (D : Data) where
  name : Obj
  input_ : Option D.Cloud := none
  search_radius_ : Option Num := none
  tree_ : Option (KdTree D.Cloud) := none

/-- A `pcl::GreedyProjectionTriangulation<pcl::PointNormal>`. -/
structure GreedyProjectionTriangulation (D : Data) where
  name : Obj
  search_radius_ : Option Num := none
  mu_ : Option Num := none
  nnn_ : Option ℤ := none
  eps_angle_ : Option Num := none
  minimum_angle_ : Option Num := none
  maximum_angle_ : Option Num := none
  consistent_ : Option Bool := none
  tree_ : Option (KdTree D.CloudNormal) := none
  input_ : Option D.CloudNormal := none

/-- A `pcl::ROPSEstimation<pcl::PointXYZ, pcl::Histogram<N>>`; `descriptor_width` is the
template argument `N` of its output point type. -/
structure ROPSEstimation (D : Data) where
  name : Obj
  descriptor_width : ℕ
  tree_ : Option (KdTree D.Cloud) := none
  surface_ : Option D.Cloud := none
  input_ : Option D.Cloud := none
  triangles_ : Option D.Polygons := none
  search_radius_ : Option Num := none
  number_of_bins_ : Option ℕ := none
  number_of_rotations_ : Option ℕ := none
  support_radius_ : Option Num := none

/-- A `pcl::PointCloud<pcl::Histogram<N>>`: the width `N` and, once computed, the points. -/
structure HistogramCloud (D : Data) where
  width : ℕ
  points : Option D.Histograms := none

/-- The routines of the library that do the numerical work. Each reads the state of the
object it is called on. -/
structure Lib (D : Data) where
  /-- Method `NormalEstimation::compute`. -/
  normalCompute : NormalEstimation D → D.Normals
  /-- Function `pcl::concatenateFields`. -/
  concatenateFields : D.Cloud → D.Normals → D.CloudNormal
  /-- Method `GreedyProjectionTriangulation::reconstruct`. -/
  reconstruct : GreedyProjectionTriangulation D → D.PolygonMesh
  /-- Member `PolygonMesh::polygons`. -/
  polygons : D.PolygonMesh → D.Polygons
  /-- Method `ROPSEstimation::compute`. -/
  ropsCompute : ROPSEstimation D → D.Histograms

/-! ## The call log -/

/-- An argument of a logged call. For `compute` and `reconstruct` the state of the
receiving object at the time of the call is logged as well. -/
inductive Arg (D : Data) where
  | cloud (c : D.Cloud)
  | normals (n : D.Normals)
  | cloudNormal (c : D.CloudNormal)
  | mesh (m : D.PolygonMesh)
  | polygons (p : D.Polygons)
  | histograms (h : HistogramCloud D)
  | tree (t : KdTree D.Cloud)
  | treeCN (t : KdTree D.CloudNormal)
  | num (x : Num)
  | uint (n : ℕ)
  | int (n : ℤ)
  | bool (b : Bool)
  | normalEstimation (s : NormalEstimation D)
  | greedyProjection (s : GreedyProjectionTriangulation D)
  | rops (s : ROPSEstimation D)

/-- One call: the object, the member function and the arguments. -/
structure Call (D : Data) where
  obj : Obj
  method : Method
  args : List (Arg D)

/-- What `main` does to the outside: the calls it makes, in order, and the text it
writes to `std::cout`. -/
structure World (D : Data) where
  trace : List (Call D) := []
  stdout : String := ""

/-- Programs over the world. -/
abbrev Prog (D : Data) := StateM (World D)

/-- Append a call to the log. -/
def call {D : Data} (o : Obj) (m : Method) (args : List (Arg D)) : Prog D Unit :=
  modify fun w => { w with trace := w.trace ++ [⟨o, m, args⟩] }

/-- Statement `std::cout << s`. -/
def cout {D : Data} (s : String) : Prog D Unit :=
  modify fun w => { w with stdout := w.stdout ++ s }

/-- The manipulator `std::endl` sent to `std::cout`: a newline. -/
def endl {D : Data} : Prog D Unit :=
  modify fun w => { w with stdout := w.stdout ++ "\n" }

/-! ## Member functions -/

/-- Method `KinnectGrabber::run` (from `KinnectGrabber.h`, not part of the sources): only the call is logged. -/
def KinnectGrabber.run {D : Data} : Prog D Unit :=
  call .v .run []

/-- Method `KinnectGrabber::getLatestCloud`: returns the pointer the grabber holds, `none` for
a null pointer. What the grabber holds is the parameter `latest`. -/
def KinnectGrabber.getLatestCloud {D : Data} (latest : Option D.Cloud) :
    Prog D (Option D.Cloud) := do
  call .v .getLatestCloud []
  return latest

namespace KdTree

/-- Method `setInputCloud` of the tree over `PointXYZ`. -/
def setInputCloud {D : Data} (self : KdTree D.Cloud) (cloud : D.Cloud) :
    Prog D (KdTree D.Cloud) := do
  call self.name .setInputCloud [.cloud cloud]
  return { self with input_ := some cloud }

end KdTree

namespace NormalEstimation

variable {D : Data}

def setInputCloud (self : NormalEstimation D) (cloud : D.Cloud) :
    Prog D (NormalEstimation D) := do
  call self.name .setInputCloud [.cloud cloud]
  return { self with input_ := some cloud }

def setRadiusSearch (self : NormalEstimation D) (radius : Num) :
    Prog D (NormalEstimation D) := do
  call self.name .setRadiusSearch [.num radius]
  return { self with search_radius_ := some radius }

def setSearchMethod (self : NormalEstimation D) (tree : KdTree D.Cloud) :
    Prog D (NormalEstimation D) := do
  call self.name .setSearchMethod [.tree tree]
  return { self with tree_ := some tree }

/-- Method `compute(output)`: the library computes the output from the state of the estimator. -/
def compute (L : Lib D) (self : NormalEstimation D) : Prog D D.Normals := do
  let output := L.normalCompute self
  call self.name .compute [.normalEstimation self, .normals output]
  return output

end NormalEstimation

/-- Function `pcl::concatenateFields(cloud1, cloud2, cloud_out)`. -/
def concatenateFields {D : Data} (L : Lib D) (cloud1 : D.Cloud) (cloud2 : D.Normals) :
    Prog D D.CloudNormal := do
  let cloud_out := L.concatenateFields cloud1 cloud2
  call .pcl .concatenateFields [.cloud cloud1, .normals cloud2, .cloudNormal cloud_out]
  return cloud_out

namespace GreedyProjectionTriangulation

variable {D : Data}

def setSearchRadius (self : GreedyProjectionTriangulation D) (radius : Num) :
    Prog D (GreedyProjectionTriangulation D) := do
  call self.name .setSearchRadius [.num radius]
  return { self with search_radius_ := some radius }

def setMu (self : GreedyProjectionTriangulation D) (mu : Num) :
    Prog D (GreedyProjectionTriangulation D) := do
  call self.name .setMu [.num mu]
  return { self with mu_ := some mu }

def setMaximumNearestNeighbors (self : GreedyProjectionTriangulation D) (nnn : ℤ) :
    Prog D (GreedyProjectionTriangulation D) := do
  call self.name .setMaximumNearestNeighbors [.int nnn]
  return { self with nnn_ := some nnn }

def setMaximumSurfaceAngle (self : GreedyProjectionTriangulation D) (eps_angle : Num) :
    Prog D (GreedyProjectionTriangulation D) := do
  call self.name .setMaximumSurfaceAngle [.num eps_angle]
  return { self with eps_angle_ := some eps_angle }

def setMinimumAngle (self : GreedyProjectionTriangulation D) (minimum_angle : Num) :
    Prog D (GreedyProjectionTriangulation D) := do
  call self.name .setMinimumAngle [.num minimum_angle]
  return { self with minimum_angle_ := some minimum_angle }

def setMaximumAngle (self : GreedyProjectionTriangulation D) (maximum_angle : Num) :
    Prog D (GreedyProjectionTriangulation D) := do
  call self.name .setMaximumAngle [.num maximum_angle]
  return { self with maximum_angle_ := some maximum_angle }

def setNormalConsistency (self : GreedyProjectionTriangulation D) (consistent : Bool) :
    Prog D (GreedyProjectionTriangulation D) := do
  call self.name .setNormalConsistency [.bool consistent]
  return { self with consistent_ := some consistent }

def setSearchMethod (self : GreedyProjectionTriangulation D) (tree : KdTree D.CloudNormal) :
    Prog D (GreedyProjectionTriangulation D) := do
  call self.name .setSearchMethod [.treeCN tree]
  return { self with tree_ := some tree }

def setInputCloud (self : GreedyProjectionTriangulation D) (cloud : D.CloudNormal) :
    Prog D (GreedyProjectionTriangulation D) := do
  call self.name .setInputCloud [.cloudNormal cloud]
  return { self with input_ := some cloud }

/-- Method `reconstruct(output)`: the library builds the mesh from the state of the object. -/
def reconstruct (L : Lib D) (self : GreedyProjectionTriangulation D) :
    Prog D D.PolygonMesh := do
  let output := L.reconstruct self
  call self.name .reconstruct [.greedyProjection self, .mesh output]
  return output

end GreedyProjectionTriangulation

namespace ROPSEstimation

variable {D : Data}

def setSearchMethod (self : ROPSEstimation D) (tree : KdTree D.Cloud) :
    Prog D (ROPSEstimation D) := do
  call self.name .setSearchMethod [.tree tree]
  return { self with tree_ := some tree }

def setSearchSurface (self : ROPSEstimation D) (cloud : D.Cloud) :
    Prog D (ROPSEstimation D) := do
  call self.name .setSearchSurface [.cloud cloud]
  return { self with surface_ := some cloud }

def setInputCloud (self : ROPSEstimation D) (cloud : D.Cloud) :
    Prog D (ROPSEstimation D) := do
  call self.name .setInputCloud [.cloud cloud]
  return { self with input_ := some cloud }

def setTriangles (self : ROPSEstimation D) (triangles : D.Polygons) :
    Prog D (ROPSEstimation D) := do
  call self.name .setTriangles [.polygons triangles]
  return { self with triangles_ := some triangles }

def setRadiusSearch (self : ROPSEstimation D) (radius : Num) :
    Prog D (ROPSEstimation D) := do
  call self.name .setRadiusSearch [.num radius]
  return { self with search_radius_ := some radius }

def setNumberOfPartitionBins (self : ROPSEstimation D) (number_of_bins : ℕ) :
    Prog D (ROPSEstimation D) := do
  call self.name .setNumberOfPartitionBins [.uint number_of_bins]
  return { self with number_of_bins_ := some number_of_bins }

def setNumberOfRotations (self : ROPSEstimation D) (number_of_rotations : ℕ) :
    Prog D (ROPSEstimation D) := do
  call self.name .setNumberOfRotations [.uint number_of_rotations]
  return { self with number_of_rotations_ := some number_of_rotations }

def setSupportRadius (self : ROPSEstimation D) (support_radius : Num) :
    Prog D (ROPSEstimation D) := do
  call self.name .setSupportRadius [.num support_radius]
  return { self with support_radius_ := some support_radius }

/-- Method `compute(output)`: the library fills the output cloud from the state of the
estimator; the width of the output cloud is the one it was declared with. -/
def compute (L : Lib D) (self : ROPSEstimation D) (output : HistogramCloud D) :
    Prog D (HistogramCloud D) := do
  let output := { output with points := some (L.ropsCompute self) }
  call self.name .compute [.rops self, .histograms output]
  return output

end ROPSEstimation

/-! ## The program -/

/-- Function `main` (lines 30 to 104). `latest` is what `v.getLatestCloud()` returns after
`v.run()`: `none` for a null pointer. The result is the exit status. -/
def main {D : Data} (L : Lib D) (latest : Option D.Cloud) : Prog D ℤ := do
  KinnectGrabber.run
  -- the pointer starts null and is overwritten at once (lines 36 and 37)
  let cloud : Option D.Cloud ← KinnectGrabber.getLatestCloud latest
  match cloud with
  | none =>
    cout "Get cloud failed!"
    endl
  | some cloud =>
    -- estimate normals
    let mut normal_estimator : NormalEstimation D := { name := .normal_estimator }
    let tree_n : KdTree D.Cloud := { name := .tree_n }
    normal_estimator ← normal_estimator.setInputCloud cloud
    normal_estimator ← normal_estimator.setRadiusSearch (.lit normal_radius)
    normal_estimator ← normal_estimator.setSearchMethod tree_n
    let normal ← normal_estimator.compute L
    -- concatenate cloud and normal
    let cloud_normal ← concatenateFields L cloud normal
    -- search tree for the triangulation
    let tree_c_n : KdTree D.CloudNormal := { name := .tree_c_n }
    -- greedy projection triangulation object and parameters
    let mut gp3 : GreedyProjectionTriangulation D := { name := .gp3 }
    gp3 ← gp3.setSearchRadius (.lit 1)
    gp3 ← gp3.setMu (.lit (5 / 2))
    gp3 ← gp3.setMaximumNearestNeighbors 1000
    gp3 ← gp3.setMaximumSurfaceAngle (.piMulDiv 1 4)
    gp3 ← gp3.setMinimumAngle (.piMulDiv 1 18)
    gp3 ← gp3.setMaximumAngle (.piMulDiv 2 3)
    gp3 ← gp3.setNormalConsistency false
    gp3 ← gp3.setSearchMethod tree_c_n
    -- input cloud with normals, reconstruct
    gp3 ← gp3.setInputCloud cloud_normal
    let triangles ← gp3.reconstruct L
    -- search tree for the feature estimation
    let mut search_method : KdTree D.Cloud := { name := .search_method }
    search_method ← search_method.setInputCloud cloud
    -- the estimator and its parameters
    let support_radius := support_radius
    let number_of_partition_bins := number_of_partition_bins
    let number_of_rotations := number_of_rotations
    let mut ros_estimator : ROPSEstimation D :=
      { name := .ros_estimator, descriptor_width := histogram_width }
    ros_estimator ← ros_estimator.setSearchMethod search_method
    ros_estimator ← ros_estimator.setSearchSurface cloud
    ros_estimator ← ros_estimator.setInputCloud cloud
    ros_estimator ← ros_estimator.setTriangles (L.polygons triangles)
    ros_estimator ← ros_estimator.setRadiusSearch (.lit support_radius)
    ros_estimator ← ros_estimator.setNumberOfPartitionBins number_of_partition_bins
    ros_estimator ← ros_estimator.setNumberOfRotations number_of_rotations
    ros_estimator ← ros_estimator.setSupportRadius (.lit support_radius)
    -- the output cloud, and the estimation
    let histograms : HistogramCloud D := { width := histogram_width }
    let _ ← ros_estimator.compute L histograms
  return 0

/-- Run `main` from the empty world: the exit status and the final world. -/
def exec {D : Data} (L : Lib D) (latest : Option D.Cloud) : ℤ × World D :=
  (main L latest).run {}

/-! ## Observations on a run -/

/-- Shape of an argument: a scalar is kept, a container is replaced by its kind (for a
histogram cloud with its width, for a tree or a receiving object with its name). -/
inductive Shape where
  | cloud | normals | cloudNormal | mesh | polygons
  | histograms (width : ℕ)
  | tree (name : Obj)
  | num (x : Num)
  | uint (n : ℕ)
  | int (n : ℤ)
  | bool (b : Bool)
  | receiver (name : Obj)
  deriving DecidableEq

/-- Shape of a logged argument. -/
def Arg.shape {D : Data} : Arg D → Shape
  | .cloud _ => .cloud
  | .normals _ => .normals
  | .cloudNormal _ => .cloudNormal
  | .mesh _ => .mesh
  | .polygons _ => .polygons
  | .histograms h => .histograms h.width
  | .tree t => .tree t.name
  | .treeCN t => .tree t.name
  | .num x => .num x
  | .uint n => .uint n
  | .int n => .int n
  | .bool b => .bool b
  | .normalEstimation s => .receiver s.name
  | .greedyProjection s => .receiver s.name
  | .rops s => .receiver s.name

/-- A call without the contents of the containers passed to it. -/
def Call.sig {D : Data} (c : Call D) : Obj × Method × List Shape :=
  (c.obj, c.method, c.args.map Arg.shape)

/-- The sequence of calls of a run, without the contents of the containers. -/
def callSequence {D : Data} (w : World D) : List (Obj × Method × List Shape) :=
  w.trace.map Call.sig

/-- The member functions called on object `o`, in order. -/
def callsOn {D : Data} (w : World D) (o : Obj) : List Method :=
  (w.trace.filter fun c => c.obj = o).map Call.method

/-- The argument lists of the calls of `m` on `o`, in order. -/
def argsOf {D : Data} (w : World D) (o : Obj) (m : Method) : List (List (Arg D)) :=
  (w.trace.filter fun c => c.obj = o ∧ c.method = m).map Call.args

/-- The frame grabs and the algorithm runs of a run, in order. -/
def stages {D : Data} (w : World D) : List (Obj × Method) :=
  (w.trace.filter fun c => c.method = .getLatestCloud ∨ c.method.isCompute = true).map
    fun c => (c.obj, c.method)

/-- The calls on one object are setters followed by one algorithm run, which is last. -/
def settersThenCompute : List Method → Bool
  | [] => false
  | [m] => m.isCompute
  | m :: ms => m.isSetter && settersThenCompute ms

/-- The parameter-setting and algorithm calls of a run, in order, without the contents of
the containers. -/
def configAndCompute {D : Data} (w : World D) : List (Obj × Method × List Shape) :=
  (callSequence w).filter fun s => s.2.1.isSetter || s.2.1.isCompute

/-! ## Formulas of the specification -/

/-- Descriptor length as the specification states it (section 3): 3 axes times the number
of rotations times 3 planes times 5 statistics. The number of bins is an argument the
formula does not use. -/
def descriptorLength (number_of_rotations _number_of_bins : ℕ) : ℕ :=
  3 * number_of_rotations * 3 * 5

/-- The condition of `InvalidConfiguration` as the specification states it (section 7). -/
def invalidConfiguration (support_radius : ℚ) (number_of_rotations number_of_bins : ℕ) :
    Bool :=
  decide (support_radius ≤ 0) || decide (number_of_rotations < 1) ||
    decide (number_of_bins < 1)

/-! ## A small instance -/

/-- Containers over integer triples. -/
def demoData : Data where
  Cloud := List (ℤ × ℤ × ℤ)
  Normals := List (ℤ × ℤ × ℤ)
  CloudNormal := List ((ℤ × ℤ × ℤ) × (ℤ × ℤ × ℤ))
  PolygonMesh := List (ℕ × ℕ × ℕ)
  Polygons := List (ℕ × ℕ × ℕ)
  Histograms := List (List ℤ)

/-- Stand-ins for the library routines, enough to run `main` on a concrete cloud. -/
def demoLib : Lib demoData where
  normalCompute := fun s => (s.input_.getD []).map fun _ => ((0 : ℤ), (0 : ℤ), (1 : ℤ))
  concatenateFields := fun c n => List.zip c n
  reconstruct := fun s => (List.range ((s.input_.getD []).length - 2)).map
    fun i => (i, i + 1, i + 2)
  polygons := fun m => m
  ropsCompute := fun s => (s.input_.getD []).map
    fun _ => List.replicate s.descriptor_width (0 : ℤ)

/-- A cloud of four points. -/
def demoCloud : demoData.Cloud := [(0, 0, 0), (1, 0, 0), (0, 1, 0), (0, 0, 1)]

/-! ## The two runs of `main`, written out -/

section Runs

variable {D : Data}

/-- The run of `main` when the grabber holds no cloud. -/
theorem exec_none (L : Lib D) :
    exec L none =
      (0, { trace := [⟨.v, .run, []⟩, ⟨.v, .getLatestCloud, []⟩],
            stdout := "Get cloud failed!\n" }) := by
  simp [exec, main, KinnectGrabber.run, KinnectGrabber.getLatestCloud, call, cout, endl,
    StateT.run, bind, StateT.bind, pure, StateT.pure, modify, modifyGet,
    MonadStateOf.modifyGet, StateT.modifyGet]

/-- The run of `main` when the grabber holds the cloud `c`: the log, with the state every
object has when its algorithm runs. -/
theorem exec_some (L : Lib D) (c : D.Cloud) :
    exec L (some c) =
      let tree_n : KdTree D.Cloud := { name := .tree_n }
      let normal_estimator : NormalEstimation D :=
        { name := .normal_estimator, input_ := some c,
          search_radius_ := some (.lit normal_radius), tree_ := some tree_n }
      let normal := L.normalCompute normal_estimator
      let cloud_normal := L.concatenateFields c normal
      let tree_c_n : KdTree D.CloudNormal := { name := .tree_c_n }
      let gp3 : GreedyProjectionTriangulation D :=
        { name := .gp3, search_radius_ := some (.lit 1), mu_ := some (.lit (5 / 2)),
          nnn_ := some 1000, eps_angle_ := some (.piMulDiv 1 4),
          minimum_angle_ := some (.piMulDiv 1 18), maximum_angle_ := some (.piMulDiv 2 3),
          consistent_ := some false, tree_ := some tree_c_n, input_ := some cloud_normal }
      let triangles := L.reconstruct gp3
      let search_method : KdTree D.Cloud := { name := .search_method, input_ := some c }
      let ros_estimator : ROPSEstimation D :=
        { name := .ros_estimator, descriptor_width := histogram_width,
          tree_ := some search_method, surface_ := some c, input_ := some c,
          triangles_ := some (L.polygons triangles),
          search_radius_ := some (.lit support_radius),
          number_of_bins_ := some number_of_partition_bins,
          number_of_rotations_ := some number_of_rotations,
          support_radius_ := some (.lit support_radius) }
      let histograms : HistogramCloud D :=
        { width := histogram_width, points := some (L.ropsCompute ros_estimator) }
      (0, { trace :=
              [⟨.v, .run, []⟩,
               ⟨.v, .getLatestCloud, []⟩,
               ⟨.normal_estimator, .setInputCloud, [.cloud c]⟩,
               ⟨.normal_estimator, .setRadiusSearch, [.num (.lit normal_radius)]⟩,
               ⟨.normal_estimator, .setSearchMethod, [.tree tree_n]⟩,
               ⟨.normal_estimator, .compute, [.normalEstimation normal_estimator, .normals normal]⟩,
               ⟨.pcl, .concatenateFields, [.cloud c, .normals normal, .cloudNormal cloud_normal]⟩,
               ⟨.gp3, .setSearchRadius, [.num (.lit 1)]⟩,
               ⟨.gp3, .setMu, [.num (.lit (5 / 2))]⟩,
               ⟨.gp3, .setMaximumNearestNeighbors, [.int 1000]⟩,
               ⟨.gp3, .setMaximumSurfaceAngle, [.num (.piMulDiv 1 4)]⟩,
               ⟨.gp3, .setMinimumAngle, [.num (.piMulDiv 1 18)]⟩,
               ⟨.gp3, .setMaximumAngle, [.num (.piMulDiv 2 3)]⟩,
               ⟨.gp3, .setNormalConsistency, [.bool false]⟩,
               ⟨.gp3, .setSearchMethod, [.treeCN tree_c_n]⟩,
               ⟨.gp3, .setInputCloud, [.cloudNormal cloud_normal]⟩,
               ⟨.gp3, .reconstruct, [.greedyProjection gp3, .mesh triangles]⟩,
               ⟨.search_method, .setInputCloud, [.cloud c]⟩,
               ⟨.ros_estimator, .setSearchMethod, [.tree search_method]⟩,
               ⟨.ros_estimator, .setSearchSurface, [.cloud c]⟩,
               ⟨.ros_estimator, .setInputCloud, [.cloud c]⟩,
               ⟨.ros_estimator, .setTriangles, [.polygons (L.polygons triangles)]⟩,
               ⟨.ros_estimator, .setRadiusSearch, [.num (.lit support_radius)]⟩,
               ⟨.ros_estimator, .setNumberOfPartitionBins, [.uint number_of_partition_bins]⟩,
               ⟨.ros_estimator, .setNumberOfRotations, [.uint number_of_rotations]⟩,
               ⟨.ros_estimator, .setSupportRadius, [.num (.lit support_radius)]⟩,
               ⟨.ros_estimator, .compute, [.rops ros_estimator, .histograms histograms]⟩],
            stdout := "" }) := by
  simp [exec, main, KinnectGrabber.run, KinnectGrabber.getLatestCloud, call,
    NormalEstimation.setInputCloud, NormalEstimation.setRadiusSearch,
    NormalEstimation.setSearchMethod, NormalEstimation.compute, concatenateFields,
    GreedyProjectionTriangulation.setSearchRadius, GreedyProjectionTriangulation.setMu,
    GreedyProjectionTriangulation.setMaximumNearestNeighbors,
    GreedyProjectionTriangulation.setMaximumSurfaceAngle,
    GreedyProjectionTriangulation.setMinimumAngle,
    GreedyProjectionTriangulation.setMaximumAngle,
    GreedyProjectionTriangulation.setNormalConsistency,
    GreedyProjectionTriangulation.setSearchMethod,
    GreedyProjectionTriangulation.setInputCloud, GreedyProjectionTriangulation.reconstruct,
    KdTree.setInputCloud, ROPSEstimation.setSearchMethod, ROPSEstimation.setSearchSurface,
    ROPSEstimation.setInputCloud, ROPSEstimation.setTriangles,
    ROPSEstimation.setRadiusSearch, ROPSEstimation.setNumberOfPartitionBins,
    ROPSEstimation.setNumberOfRotations, ROPSEstimation.setSupportRadius,
    ROPSEstimation.compute, StateT.run, bind, StateT.bind, pure, StateT.pure, modify,
    modifyGet, MonadStateOf.modifyGet, StateT.modifyGet]

end Runs

/-! ## What `settersThenCompute` checks -/

/-- Read as a proposition: the list is a list of setters followed by one algorithm run. -/
theorem settersThenCompute_iff (ms : List Method) :
    settersThenCompute ms = true ↔
      ∃ setters final, ms = setters ++ [final] ∧
        (∀ m ∈ setters, m.isSetter = true) ∧ final.isCompute = true := by
  induction ms with
  | nil => simp [settersThenCompute]
  | cons m ms ih =>
    cases ms with
    | nil =>
      constructor
      · intro h
        exact ⟨[], m, rfl, by simp, by simpa [settersThenCompute] using h⟩
      · rintro ⟨setters, final, h, -, hf⟩
        cases setters with
        | nil =>
          simp only [List.nil_append, List.cons.injEq, and_true] at h
          simpa [settersThenCompute, h] using hf
        | cons a as =>
          simp only [List.cons_append, List.cons.injEq] at h
          have := congrArg List.length h.2
          simp at this
    | cons n ns =>
      have step : settersThenCompute (m :: n :: ns) =
          (m.isSetter && settersThenCompute (n :: ns)) := rfl
      rw [step, Bool.and_eq_true, ih]
      constructor
      · rintro ⟨hm, setters, final, h, hs, hf⟩
        refine ⟨m :: setters, final, by simp [h], ?_, hf⟩
        intro x hx
        rcases List.mem_cons.1 hx with rfl | hx
        · exact hm
        · exact hs x hx
      · rintro ⟨setters, final, h, hs, hf⟩
        cases setters with
        | nil =>
          have := congrArg List.length h
          simp at this
        | cons a as =>
          simp only [List.cons_append, List.cons.injEq] at h
          obtain ⟨rfl, h⟩ := h
          exact ⟨hs _ (List.mem_cons_self _ _), as, final, h,
            fun x hx => hs x (List.mem_cons_of_mem _ hx), hf⟩

/-! ## The claims -/

section Claims

variable {D : Data}

/-- C1: the width declared for the output, the template argument 135 of the estimator and
of the output cloud, is 3 axes x rotations x 3 planes x 5 statistics at the configured
number of rotations; the run sets 3 rotations and 5 bins, 3*3*3*5 = 135, and the width is
the same for every number of bins. -/
theorem descriptor_width_matches_configuration (L : Lib D) (c : D.Cloud) :
    (∃ r h, argsOf (exec L (some c)).2 .ros_estimator .compute =
        [[.rops r, .histograms h]] ∧
      r.descriptor_width = 135 ∧ h.width = 135 ∧
      r.number_of_rotations_ = some 3 ∧ r.number_of_bins_ = some 5 ∧
      r.descriptor_width = descriptorLength 3 5) ∧
    argsOf (exec L (some c)).2 .ros_estimator .setNumberOfRotations = [[.uint 3]] ∧
    argsOf (exec L (some c)).2 .ros_estimator .setNumberOfPartitionBins = [[.uint 5]] ∧
    histogram_width = descriptorLength number_of_rotations number_of_partition_bins ∧
    descriptorLength 3 5 = 3 * 3 * 3 * 5 ∧
    ∀ bins, descriptorLength number_of_rotations bins = histogram_width := by
  rw [exec_some]
  exact ⟨⟨_, _, rfl, rfl, rfl, rfl, rfl, rfl⟩, rfl, rfl, rfl, rfl, fun _ => rfl⟩

/-- C2: with a cloud grabbed, the run has one frame grab, one normal estimation, one
triangulation and one RoPS estimation, in this order, and the triangles the RoPS estimator
is given, and holds when it runs, are the polygons of the mesh that triangulation built. -/
theorem one_run_of_each_stage_in_order (L : Lib D) (c : D.Cloud) :
    stages (exec L (some c)).2 =
      [(.v, .getLatestCloud), (.normal_estimator, .compute), (.gp3, .reconstruct),
       (.ros_estimator, .compute)] ∧
    ∃ g r h,
      argsOf (exec L (some c)).2 .gp3 .reconstruct =
        [[.greedyProjection g, .mesh (L.reconstruct g)]] ∧
      argsOf (exec L (some c)).2 .ros_estimator .setTriangles =
        [[.polygons (L.polygons (L.reconstruct g))]] ∧
      argsOf (exec L (some c)).2 .ros_estimator .compute = [[.rops r, .histograms h]] ∧
      r.triangles_ = some (L.polygons (L.reconstruct g)) ∧
      h.points = some (L.ropsCompute r) := by
  rw [exec_some]
  exact ⟨rfl, _, _, _, rfl, rfl, rfl, rfl, rfl⟩

/-- C3, as stated, fails: the parameter-setting and algorithm calls of the run without a
cloud differ from those of a run with a cloud. -/
theorem same_sequence_for_every_grab_fails :
    configAndCompute (exec demoLib none).2 ≠
      configAndCompute (exec demoLib (some demoCloud)).2 := by
  rw [exec_none, exec_some]
  simp [configAndCompute, callSequence, Call.sig, Method.isSetter, Method.isCompute]

/-- C3, amended: the run branches once, on the frame grab. With a cloud grabbed the
sequence of calls, parameter values included, is the same whatever the cloud is; with no
cloud there is no parameter-setting and no algorithm call. -/
theorem same_sequence_for_every_cloud (L : Lib D) :
    (∀ c c', callSequence (exec L (some c)).2 = callSequence (exec L (some c')).2) ∧
    (∀ c, (configAndCompute (exec L (some c)).2).length = 24) ∧
    configAndCompute (exec L none).2 = [] := by
  refine ⟨fun c c' => ?_, fun c => ?_, ?_⟩
  · rw [exec_some, exec_some]
    rfl
  · rw [exec_some]
    rfl
  · rw [exec_none]
    rfl

/-- C4: the configuration the RoPS estimator holds when it runs is valid in the sense of
the specification: the support radius is the binary32 value of 0.0285 (within half a unit
in the last place of it) and positive, the number of rotations is 3 and the number of bins
is 5, both at least 1, and the `InvalidConfiguration` condition is false for it. -/
theorem configuration_is_valid (L : Lib D) (c : D.Cloud) :
    (∃ r h, argsOf (exec L (some c)).2 .ros_estimator .compute =
        [[.rops r, .histograms h]] ∧
      r.support_radius_ = some (.lit support_radius) ∧
      r.number_of_rotations_ = some number_of_rotations ∧
      r.number_of_bins_ = some number_of_partition_bins) ∧
    |support_radius - 285 / 10000| ≤ 1 / 2 ^ 30 ∧
    0 < support_radius ∧
    number_of_rotations = 3 ∧ 1 ≤ number_of_rotations ∧
    number_of_partition_bins = 5 ∧ 1 ≤ number_of_partition_bins ∧
    invalidConfiguration support_radius number_of_rotations number_of_partition_bins
      = false := by
  rw [exec_some]
  have hpos : (0 : ℚ) < support_radius := by norm_num [support_radius]
  refine ⟨⟨_, _, rfl, rfl, rfl, rfl⟩, ?_, hpos, rfl, by decide, rfl, by decide, ?_⟩
  · rw [abs_le]
    constructor <;> norm_num [support_radius]
  · simp [invalidConfiguration, hpos, number_of_rotations, number_of_partition_bins]

/-- C6: the cloud the frame grab returned is the input cloud of the RoPS estimator, its
search surface and the cloud of the search tree it is given; it is also the input of the
normal estimation and the cloud that, with those normals appended, is the input of the
triangulation whose polygons the estimator holds. -/
theorem one_cloud_throughout (L : Lib D) (c : D.Cloud) :
    ∃ n g r h,
      argsOf (exec L (some c)).2 .normal_estimator .compute =
        [[.normalEstimation n, .normals (L.normalCompute n)]] ∧
      n.input_ = some c ∧
      argsOf (exec L (some c)).2 .pcl .concatenateFields =
        [[.cloud c, .normals (L.normalCompute n),
          .cloudNormal (L.concatenateFields c (L.normalCompute n))]] ∧
      argsOf (exec L (some c)).2 .gp3 .reconstruct =
        [[.greedyProjection g, .mesh (L.reconstruct g)]] ∧
      g.input_ = some (L.concatenateFields c (L.normalCompute n)) ∧
      argsOf (exec L (some c)).2 .search_method .setInputCloud = [[.cloud c]] ∧
      argsOf (exec L (some c)).2 .ros_estimator .compute = [[.rops r, .histograms h]] ∧
      r.input_ = some c ∧ r.surface_ = some c ∧
      r.tree_ = some { name := .search_method, input_ := some c } ∧
      r.triangles_ = some (L.polygons (L.reconstruct g)) := by
  rw [exec_some]
  exact ⟨_, _, _, _, rfl, rfl, rfl, rfl, rfl, rfl, rfl, rfl, rfl, rfl, rfl⟩

/-- C7: on the normal estimator, on the triangulation object and on the RoPS estimator the
calls are setters followed by one `compute` or `reconstruct`, which is the last call on the
object; without a cloud none of the three is called at all. -/
theorem setters_precede_the_single_compute (L : Lib D) (c : D.Cloud) :
    settersThenCompute (callsOn (exec L (some c)).2 .normal_estimator) = true ∧
    settersThenCompute (callsOn (exec L (some c)).2 .gp3) = true ∧
    settersThenCompute (callsOn (exec L (some c)).2 .ros_estimator) = true ∧
    callsOn (exec L none).2 .normal_estimator = [] ∧
    callsOn (exec L none).2 .gp3 = [] ∧
    callsOn (exec L none).2 .ros_estimator = [] := by
  rw [exec_some, exec_none]
  exact ⟨rfl, rfl, rfl, rfl, rfl, rfl⟩

/-- C8: without a cloud, what `main` writes to standard output is the line
"Get cloud failed!" and the only calls are the two on the grabber; with a cloud, `main`
writes nothing. -/
theorem failure_message_only_without_cloud (L : Lib D) :
    (exec L none).2.stdout = "Get cloud failed!\n" ∧
    callSequence (exec L none).2 = [(.v, .run, []), (.v, .getLatestCloud, [])] ∧
    stages (exec L none).2 = [(.v, .getLatestCloud)] ∧
    ∀ c, (exec L (some c)).2.stdout = "" := by
  refine ⟨?_, ?_, ?_, fun c => ?_⟩
  · rw [exec_none]
  · rw [exec_none]
    rfl
  · rw [exec_none]
    rfl
  · rw [exec_some]

/-- C9: `setRadiusSearch` and `setSupportRadius` are each called once on the RoPS
estimator, both with `support_radius`, so the estimator runs with a search radius equal
to its support radius and any query by radius gives the same points for the two. -/
theorem search_radius_is_support_radius (L : Lib D) (c : D.Cloud) :
    argsOf (exec L (some c)).2 .ros_estimator .setRadiusSearch =
      [[.num (.lit support_radius)]] ∧
    argsOf (exec L (some c)).2 .ros_estimator .setSupportRadius =
      [[.num (.lit support_radius)]] ∧
    ∃ r h, argsOf (exec L (some c)).2 .ros_estimator .compute =
        [[.rops r, .histograms h]] ∧
      r.search_radius_ = some (.lit support_radius) ∧
      r.support_radius_ = some (.lit support_radius) ∧
      r.search_radius_ = r.support_radius_ ∧
      ∀ (Points : Type) (radiusSearch : Option Num → Points),
        radiusSearch r.search_radius_ = radiusSearch r.support_radius_ := by
  rw [exec_some]
  exact ⟨rfl, rfl, _, _, rfl, rfl, rfl, rfl, fun _ _ => rfl⟩

/-- C10: `main` returns 0 whatever the frame grab gave, so the exit status with a cloud
and without one is the same. -/
theorem exit_status_is_zero (L : Lib D) :
    (∀ latest, (exec L latest).1 = 0) ∧
    ∀ c, (exec L (some c)).1 = (exec L none).1 := by
  refine ⟨fun latest => ?_, fun c => ?_⟩
  · cases latest with
    | none => rw [exec_none]
    | some c => rw [exec_some]
  · rw [exec_some, exec_none]

end Claims

end PracticePCL
